import Mathlib

/-!
Shallow embedding of the cross-thread promise-resolution bridge of the
`quickjs_es_runtime` repository:

* `src/runtimefacade_utils/promises.rs` — `new_resolving_promise` and the
  thread-local `RESOLVING_PROMISES` registry;
* `src/quickjs_utils/promises.rs` — `PromiseRef`, `new_promise`,
  `PromiseRef::get_promise_obj_ref`, `PromiseRef::resolve` / `reject`.

The embedding makes the continuation that `new_resolving_promise` posts to
the event loop an explicit pure function from its inputs (the produced
result, the mapper, whether the target context is still alive, and whether
each engine call succeeds) to the final registry state plus a trace of
observable events: resolve-capability invocations, reject-capability
invocations, the context-dropped log message, and panics.  A
`ContEvent.panicked` event models a Rust `.expect(...)` firing, i.e. an
abort of the engine thread; the strings attached are the expect messages
from the source.
-/

set_option autoImplicit false

/-- Modelled from the spec: `JSValueRef` (the repository's `src/valueref.rs`
is not among the provided sources).  Per §4.1 a Handle is a
reference-counted wrapper around an opaque engine value; the `owning` flag
distinguishes owning handles, which participate in the native reference
count, from borrowed (`new_no_free`) handles, which never do.  Since the
claims only concern the reference count of the single promise object, the
count itself is threaded separately as a `Nat`. -/
structure JSValueRef where
  owning : Bool
  deriving DecidableEq, Repr

/-- Modelled from the spec: `JSValueRef::new` wraps an owning native value,
incrementing the native reference count (§4.1 "`new(owning native value)`
creates an owning Handle incrementing the native reference count"). -/
def JSValueRef.new (count : Nat) : Nat × JSValueRef :=
  (count + 1, { owning := true })

/-- Modelled from the spec: `JSValueRef::new_no_free` wraps a borrowed
value and performs no increment (§4.1 `new_borrowed`). -/
def JSValueRef.new_no_free (count : Nat) : Nat × JSValueRef :=
  (count, { owning := false })

/-- Modelled from the spec: cloning an owning handle increments the shared
count; cloning a borrowed handle is a plain copy (§4.1). -/
def JSValueRef.clone (self : JSValueRef) (count : Nat) : Nat × JSValueRef :=
  if self.owning then (count + 1, self) else (count, self)

/-- Modelled from the spec: dropping an owning handle decrements the count;
dropping a borrowed handle does nothing (§4.1). -/
def JSValueRef.dropRef (self : JSValueRef) (count : Nat) : Nat :=
  if self.owning then count - 1 else count

/-- The script-visible values the claims mention: numbers (e.g. the mapped
`135`) and native Error objects carrying name/message/stack, as built by
`errors::new_error`. -/
inductive JSValue where
  | num (n : Int)
  | error (name message stack : String)
  | other
  deriving DecidableEq, Repr

/-- The structured error type returned by a failing mapper
(`hirofa_utils::js_utils::JsError`): the source reads it through
`get_name()` / `get_message()` / `get_stack()` (promises.rs lines
115-117), modelled as the three fields. -/
structure JsError where
  name : String
  message : String
  stack : String
  deriving DecidableEq, Repr

/-- The execution context (realm): what the claims need of
`QuickJsRealmAdapter` is its `id` (promises.rs line 83 captures
`q_ctx.id.clone()`). -/
structure QuickJsRealmAdapter where
  id : String
  deriving DecidableEq, Repr

/-- `PromiseRef` from `src/quickjs_utils/promises.rs` lines 14-18: the
promise object plus its reject and resolve capability handles (field order
as in the source). -/
structure PromiseRef where
  promise_obj_ref : JSValueRef
  reject_function_obj_ref : JSValueRef
  resolve_function_obj_ref : JSValueRef
  deriving DecidableEq, Repr

/-- `new_promise` from `src/quickjs_utils/promises.rs` lines 46-68, tracking
only the promise object's native reference count: the promise value is
wrapped owning via `JSValueRef::new(prom_val)` (line 61), the resolve and
reject functions via `JSValueRef::new_no_free` (lines 56-57). -/
def new_promise (count : Nat) : Nat × PromiseRef :=
  let p := JSValueRef.new count
  (p.1,
    { promise_obj_ref := p.2
      reject_function_obj_ref := (JSValueRef.new_no_free p.1).2
      resolve_function_obj_ref := (JSValueRef.new_no_free p.1).2 })

/-- `PromiseRef::get_promise_obj_ref` from `src/quickjs_utils/promises.rs`
lines 21-23: `self.promise_obj_ref.clone()`. -/
def PromiseRef.get_promise_obj_ref (self : PromiseRef) (count : Nat) :
    Nat × JSValueRef :=
  self.promise_obj_ref.clone count

/-- Looks up the first entry with the given id in an association list. -/
def findEntry {α : Type} : List (Nat × α) → Nat → Option α
  | [], _ => none
  | (k, a) :: t, id => if k = id then some a else findEntry t id

/-- Removes every entry with the given id from an association list. -/
def removeEntry {α : Type} : List (Nat × α) → Nat → List (Nat × α)
  | [], _ => []
  | (k, a) :: t, id => if k = id then removeEntry t id else (k, a) :: removeEntry t id

/-- Modelled from the spec: the Pending-Operation Registry backing store
(`hirofa_utils::auto_id_map::AutoIdMap`, an external dependency not among
the provided sources).  Per §4.3 and §3 it maps monotonically-issued
integer identifiers to in-flight Promise Handles. -/
structure AutoIdMap (α : Type) where
  next_id : Nat
  entries : List (Nat × α)
  deriving Repr

/-- Modelled from the spec: an empty registry (`AutoIdMap::new`). -/
def AutoIdMap.new {α : Type} : AutoIdMap α :=
  { next_id := 0, entries := [] }

/-- Modelled from the spec: `insert` allocates a fresh identifier, stores
the value under it and returns the identifier (§4.3
"`insert(promise_handle) -> id`"; §3 "monotonically-issued integer
identifier"). -/
def AutoIdMap.insert {α : Type} (m : AutoIdMap α) (a : α) : Nat × AutoIdMap α :=
  (m.next_id, { next_id := m.next_id + 1, entries := (m.next_id, a) :: m.entries })

/-- Membership test used to state the registry claims. -/
def AutoIdMap.get? {α : Type} (m : AutoIdMap α) (id : Nat) : Option α :=
  findEntry m.entries id

/-- Modelled from the spec: `remove(id) -> Option<PromiseHandle>` removes
and returns the stored handle if present, or `none` if already removed or
never inserted (§4.3). -/
def AutoIdMap.removeOpt {α : Type} (m : AutoIdMap α) (id : Nat) :
    Option α × AutoIdMap α :=
  (findEntry m.entries id, { next_id := m.next_id, entries := removeEntry m.entries id })

theorem findEntry_removeEntry_self {α : Type} (l : List (Nat × α)) (id : Nat) :
    findEntry (removeEntry l id) id = none := by
  induction l with
  | nil => rfl
  | cons h t ih =>
    by_cases hk : h.1 = id
    · simpa [removeEntry, hk] using ih
    · simpa [removeEntry, findEntry, hk] using ih

theorem removeEntry_of_absent {α : Type} (l : List (Nat × α)) (id : Nat)
    (h : findEntry l id = none) : removeEntry l id = l := by
  induction l with
  | nil => rfl
  | cons p t ih =>
    by_cases hk : p.1 = id
    · exact absurd h (by simp [findEntry, hk])
    · have ht : findEntry t id = none := by simpa [findEntry, hk] using h
      simp [removeEntry, hk, ih ht]

/-- The observable events of the settlement continuation posted by
`new_resolving_promise` (promises.rs lines 88-144): an invocation of the
resolve capability with a value, an invocation of the reject capability
with a value, the error-log message for a dropped context (line 142), and
a panic — a Rust `.expect(...)` firing, aborting the engine thread — with
its expect message. -/
inductive ContEvent where
  | resolveCalled (v : JSValue)
  | rejectCalled (v : JSValue)
  | contextDropLogged (ctxId : String)
  | panicked (msg : String)
  deriving DecidableEq, Repr

def ContEvent.isResolve : ContEvent → Bool
  | ContEvent.resolveCalled _ => true
  | _ => false

def ContEvent.isReject : ContEvent → Bool
  | ContEvent.rejectCalled _ => true
  | _ => false

def ContEvent.isPanic : ContEvent → Bool
  | ContEvent.panicked _ => true
  | _ => false

/-- A resolve or reject invocation: a settlement attempt on the promise. -/
def ContEvent.isSettlement (e : ContEvent) : Bool :=
  e.isResolve || e.isReject

/-- The continuation posted to the event loop by `new_resolving_promise`
(promises.rs lines 88-144), as a pure function.  Inputs beyond the source's
captured state: `hasCtx` is whether `q_js_rt.opt_context(ctx_id)` finds the
target context alive (line 89); `newErrorOk`, `resolveOk` and `rejectOk`
are whether the engine calls `errors::new_error`, `resolve_q` and
`reject_q` return `Ok`.  Output: the registry after the continuation plus
the event trace.  Faithful to the source structure: when the context is
alive the registry entry is removed first (lines 92-95), then the produced
result is matched; mapper success invokes resolve (line 106), a failed
engine call panics via `.expect` (lines 108, 121, 125, 134, 138); mapper
failure builds an error from name/message/stack then rejects (lines
112-126); producer failure builds a generic `"Error"` with the string as
message and empty stack then rejects (lines 131-139); a dead context only
logs (line 142). -/
def runContinuation {R : Type} (hasCtx : Bool) (m : AutoIdMap PromiseRef)
    (id : Nat) (produced : Except String R)
    (mapper : QuickJsRealmAdapter → R → Except JsError JSValue)
    (q_ctx : QuickJsRealmAdapter)
    (newErrorOk resolveOk rejectOk : Bool) :
    AutoIdMap PromiseRef × List ContEvent :=
  if hasCtx then
    ((m.removeOpt id).2,
      match (m.removeOpt id).1 with
      | none => [ContEvent.panicked "no entry found for id"]
      | some _prom_ref =>
        match produced with
        | Except.ok ok_res =>
          match mapper q_ctx ok_res with
          | Except.ok val_ref =>
            ContEvent.resolveCalled val_ref ::
              (if resolveOk then [] else [ContEvent.panicked "prom resolution failed"])
          | Except.error err =>
            if newErrorOk then
              ContEvent.rejectCalled (JSValue.error err.name err.message err.stack) ::
                (if rejectOk then [] else [ContEvent.panicked "prom rejection failed"])
            else [ContEvent.panicked "could not create str"]
        | Except.error err =>
          if newErrorOk then
            ContEvent.rejectCalled (JSValue.error "Error" err "") ::
              (if rejectOk then [] else [ContEvent.panicked "prom rejection failed"])
          else [ContEvent.panicked "could not create str"])
  else
    (m, [ContEvent.contextDropLogged q_ctx.id])

/-- The `PromiseRef` built by `new_promise_q` inside `new_resolving_promise`
(line 71): promise object owning, capability functions borrowed — equal to
`(new_promise c).2` for every count `c`. -/
def promiseRefHandles : PromiseRef :=
  { promise_obj_ref := { owning := true }
    reject_function_obj_ref := { owning := false }
    resolve_function_obj_ref := { owning := false } }

/-- The outcome of one whole `new_resolving_promise` operation: the handle
returned synchronously to the caller, the registry after the continuation
has run, and the continuation's event trace. -/
structure RunResult where
  return_ref : JSValueRef
  registry : AutoIdMap PromiseRef
  events : List ContEvent
  deriving Repr

/-- `new_resolving_promise` (promises.rs lines 60-148) composed with the
eventual run of its continuation, as a pure function: create the
`PromiseRef` (line 71), take the promise-object clone to return to the
caller (line 72), insert the `PromiseRef` into `RESOLVING_PROMISES`
keeping the fresh id (lines 75-78), and run the continuation with the
result the producer eventually yields (lines 85-145).  `produced` is that
result; the remaining boolean inputs are as in `runContinuation`. -/
def new_resolving_promise {R : Type} (m0 : AutoIdMap PromiseRef)
    (q_ctx : QuickJsRealmAdapter) (produced : Except String R)
    (mapper : QuickJsRealmAdapter → R → Except JsError JSValue)
    (aliveAtContinuation newErrorOk resolveOk rejectOk : Bool) : RunResult :=
  let ins := m0.insert promiseRefHandles
  let cont := runContinuation aliveAtContinuation ins.2 ins.1 produced mapper
    q_ctx newErrorOk resolveOk rejectOk
  { return_ref := promiseRefHandles.promise_obj_ref
    registry := cont.1
    events := cont.2 }

/-- C1: for every `new_resolving_promise` operation whose target context is
alive at continuation time, if the producer returns `Ok r` and the mapper
applied to the context and `r` returns `Ok v`, then the resolve capability
is invoked with exactly `v` (and only once), and the reject capability is
never invoked. -/
theorem c1_mapper_success_resolves_with_value {R : Type} (m0 : AutoIdMap PromiseRef)
    (q_ctx : QuickJsRealmAdapter) (r : R)
    (mapper : QuickJsRealmAdapter → R → Except JsError JSValue) (v : JSValue)
    (hm : mapper q_ctx r = Except.ok v) (newErrorOk resolveOk rejectOk : Bool) :
    ((new_resolving_promise m0 q_ctx (Except.ok r) mapper true newErrorOk
        resolveOk rejectOk).events.filter ContEvent.isResolve
      = [ContEvent.resolveCalled v])
    ∧ ((new_resolving_promise m0 q_ctx (Except.ok r) mapper true newErrorOk
        resolveOk rejectOk).events.all (fun e => ! ContEvent.isReject e) = true) := by
  cases resolveOk <;>
    simp [new_resolving_promise, runContinuation, AutoIdMap.insert, AutoIdMap.removeOpt,
      findEntry, hm, ContEvent.isResolve, ContEvent.isReject]

/-- C1 witness: a producer returning `Ok 135` mapped to the numeric value
135 resolves the promise with 135 and never rejects it. -/
theorem c1_witness :
    ((fun _ n => Except.ok (JSValue.num n) : QuickJsRealmAdapter → Int →
        Except JsError JSValue) (QuickJsRealmAdapter.mk "main") 135
      = Except.ok (JSValue.num 135))
    ∧ (((new_resolving_promise AutoIdMap.new (QuickJsRealmAdapter.mk "main")
          (Except.ok (135 : Int)) (fun _ n => Except.ok (JSValue.num n)) true true
          true true).events.filter ContEvent.isResolve
        = [ContEvent.resolveCalled (JSValue.num 135)])
      ∧ ((new_resolving_promise AutoIdMap.new (QuickJsRealmAdapter.mk "main")
          (Except.ok (135 : Int)) (fun _ n => Except.ok (JSValue.num n)) true true
          true true).events.all (fun e => ! ContEvent.isReject e) = true)) :=
  ⟨rfl, c1_mapper_success_resolves_with_value AutoIdMap.new
    (QuickJsRealmAdapter.mk "main") 135 (fun _ n => Except.ok (JSValue.num n))
    (JSValue.num 135) rfl true true true⟩

/-- C2: for every `new_resolving_promise` operation whose producer returns
`Err s` and whose target context is alive at continuation time, the reject
capability is invoked with a generic native Error built with name
`"Error"`, message exactly `s`, and an empty stack, and the resolve
capability is never invoked. -/
theorem c2_producer_error_rejects_generic {R : Type} (m0 : AutoIdMap PromiseRef)
    (q_ctx : QuickJsRealmAdapter) (s : String)
    (mapper : QuickJsRealmAdapter → R → Except JsError JSValue)
    (resolveOk rejectOk : Bool) :
    ((new_resolving_promise m0 q_ctx (Except.error s : Except String R) mapper true
        true resolveOk rejectOk).events.filter ContEvent.isReject
      = [ContEvent.rejectCalled (JSValue.error "Error" s "")])
    ∧ ((new_resolving_promise m0 q_ctx (Except.error s : Except String R) mapper true
        true resolveOk rejectOk).events.all (fun e => ! ContEvent.isResolve e)
      = true) := by
  cases rejectOk <;>
    simp [new_resolving_promise, runContinuation, AutoIdMap.insert, AutoIdMap.removeOpt,
      findEntry, ContEvent.isResolve, ContEvent.isReject]

/-- C3: for every `new_resolving_promise` operation whose producer succeeds
with `r` but whose mapper returns a structured error, with the target
context alive at continuation time, the reject capability is invoked with a
native Error built from exactly that error's name, message and stack, and
the resolve capability is never invoked. -/
theorem c3_mapper_error_rejects_structured {R : Type} (m0 : AutoIdMap PromiseRef)
    (q_ctx : QuickJsRealmAdapter) (r : R)
    (mapper : QuickJsRealmAdapter → R → Except JsError JSValue) (e : JsError)
    (hm : mapper q_ctx r = Except.error e) (resolveOk rejectOk : Bool) :
    ((new_resolving_promise m0 q_ctx (Except.ok r) mapper true true resolveOk
        rejectOk).events.filter ContEvent.isReject
      = [ContEvent.rejectCalled (JSValue.error e.name e.message e.stack)])
    ∧ ((new_resolving_promise m0 q_ctx (Except.ok r) mapper true true resolveOk
        rejectOk).events.all (fun ev => ! ContEvent.isResolve ev) = true) := by
  cases rejectOk <;>
    simp [new_resolving_promise, runContinuation, AutoIdMap.insert, AutoIdMap.removeOpt,
      findEntry, hm, ContEvent.isResolve, ContEvent.isReject]

/-- C3 witness: a mapper error with name `"TypeError"`, message `"bad"`
and empty stack rejects the promise with exactly that error and never
resolves it. -/
theorem c3_witness :
    ((fun _ _ => Except.error (JsError.mk "TypeError" "bad" "") :
        QuickJsRealmAdapter → Int → Except JsError JSValue)
        (QuickJsRealmAdapter.mk "main") 1
      = Except.error (JsError.mk "TypeError" "bad" ""))
    ∧ (((new_resolving_promise AutoIdMap.new (QuickJsRealmAdapter.mk "main")
          (Except.ok (1 : Int)) (fun _ _ => Except.error (JsError.mk "TypeError" "bad" ""))
          true true true true).events.filter ContEvent.isReject
        = [ContEvent.rejectCalled (JSValue.error (JsError.mk "TypeError" "bad" "").name
            (JsError.mk "TypeError" "bad" "").message (JsError.mk "TypeError" "bad" "").stack)])
      ∧ ((new_resolving_promise AutoIdMap.new (QuickJsRealmAdapter.mk "main")
          (Except.ok (1 : Int)) (fun _ _ => Except.error (JsError.mk "TypeError" "bad" ""))
          true true true true).events.all (fun ev => ! ContEvent.isResolve ev) = true)) :=
  ⟨rfl, c3_mapper_error_rejects_structured AutoIdMap.new
    (QuickJsRealmAdapter.mk "main") 1
    (fun _ _ => Except.error (JsError.mk "TypeError" "bad" ""))
    (JsError.mk "TypeError" "bad" "") rfl true true⟩

/-- C4: for every `new_resolving_promise` operation — whatever the producer
result, the mapper, the context's liveness and the engine-call outcomes —
the event trace contains at most one settlement attempt: resolve and
reject are never both invoked, and neither is invoked more than once. -/
theorem c4_at_most_one_settlement {R : Type} (m0 : AutoIdMap PromiseRef)
    (q_ctx : QuickJsRealmAdapter) (produced : Except String R)
    (mapper : QuickJsRealmAdapter → R → Except JsError JSValue)
    (alive newErrorOk resolveOk rejectOk : Bool) :
    ((new_resolving_promise m0 q_ctx produced mapper alive newErrorOk resolveOk
        rejectOk).events.filter ContEvent.isSettlement).length ≤ 1 := by
  cases alive
  · simp [new_resolving_promise, runContinuation, ContEvent.isSettlement,
      ContEvent.isResolve, ContEvent.isReject]
  · cases produced with
    | error s =>
      cases newErrorOk <;> cases rejectOk <;>
        simp [new_resolving_promise, runContinuation, AutoIdMap.insert,
          AutoIdMap.removeOpt, findEntry, ContEvent.isSettlement,
          ContEvent.isResolve, ContEvent.isReject]
    | ok r =>
      cases hmv : mapper q_ctx r with
      | ok v =>
        cases resolveOk <;>
          simp [new_resolving_promise, runContinuation, AutoIdMap.insert,
            AutoIdMap.removeOpt, findEntry, hmv, ContEvent.isSettlement,
            ContEvent.isResolve, ContEvent.isReject]
      | error e =>
        cases newErrorOk <;> cases rejectOk <;>
          simp [new_resolving_promise, runContinuation, AutoIdMap.insert,
            AutoIdMap.removeOpt, findEntry, hmv, ContEvent.isSettlement,
            ContEvent.isResolve, ContEvent.isReject]

/-- C5: on the Registry, remove is exactly-once and absence-safe: removing
a freshly inserted id returns the stored handle; removing it a second time
returns `none`; and removing an id that is absent returns `none` and
leaves the registry unchanged — never a stale value. -/
theorem c5_registry_remove_exactly_once {α : Type} (m : AutoIdMap α) (a : α)
    (id2 : Nat) (habs : m.get? id2 = none) :
    (((m.insert a).2.removeOpt (m.insert a).1).1 = some a)
    ∧ ((((m.insert a).2.removeOpt (m.insert a).1).2.removeOpt (m.insert a).1).1 = none)
    ∧ ((m.removeOpt id2).1 = none ∧ (m.removeOpt id2).2 = m) := by
  refine ⟨?_, ?_, ?_, ?_⟩
  · simp [AutoIdMap.insert, AutoIdMap.removeOpt, findEntry]
  · simp only [AutoIdMap.insert, AutoIdMap.removeOpt]
    exact findEntry_removeEntry_self _ _
  · simpa [AutoIdMap.removeOpt, AutoIdMap.get?] using habs
  · simp only [AutoIdMap.removeOpt]
    rw [removeEntry_of_absent m.entries id2 habs]

/-- C5 witness: on the empty registry, id 5 is absent, inserting the value
7 yields an id removable exactly once, and removing the absent id 5 is a
no-op returning `none`. -/
theorem c5_witness :
    ((AutoIdMap.new : AutoIdMap Nat).get? 5 = none)
    ∧ (((((AutoIdMap.new : AutoIdMap Nat).insert 7).2.removeOpt
          ((AutoIdMap.new : AutoIdMap Nat).insert 7).1).1 = some 7)
      ∧ (((((AutoIdMap.new : AutoIdMap Nat).insert 7).2.removeOpt
          ((AutoIdMap.new : AutoIdMap Nat).insert 7).1).2.removeOpt
          ((AutoIdMap.new : AutoIdMap Nat).insert 7).1).1 = none)
      ∧ (((AutoIdMap.new : AutoIdMap Nat).removeOpt 5).1 = none
        ∧ ((AutoIdMap.new : AutoIdMap Nat).removeOpt 5).2 = AutoIdMap.new)) :=
  ⟨rfl, c5_registry_remove_exactly_once AutoIdMap.new 7 5 rfl⟩

/-- C6: if the target context has been disposed by continuation time, the
continuation only emits the context-dropped log — no resolve, no reject,
no panic — and the Registry entry for the operation's id is still present
afterwards (the known leak). -/
theorem c6_context_dropped_logs_and_keeps_entry {R : Type}
    (m0 : AutoIdMap PromiseRef) (q_ctx : QuickJsRealmAdapter)
    (produced : Except String R)
    (mapper : QuickJsRealmAdapter → R → Except JsError JSValue)
    (newErrorOk resolveOk rejectOk : Bool) :
    ((new_resolving_promise m0 q_ctx produced mapper false newErrorOk resolveOk
        rejectOk).events = [ContEvent.contextDropLogged q_ctx.id])
    ∧ ((new_resolving_promise m0 q_ctx produced mapper false newErrorOk resolveOk
        rejectOk).registry.get? (m0.insert promiseRefHandles).1
      = some promiseRefHandles) := by
  constructor
  · simp [new_resolving_promise, runContinuation]
  · simp [new_resolving_promise, runContinuation, AutoIdMap.insert, AutoIdMap.get?,
      findEntry]

/-- C7 counterexample: the claim says a failure of the engine call invoking
the resolve capability does not terminate the process, but on the concrete
operation below a failing resolve call hits the source's
`.expect("prom resolution failed")` (promises.rs line 108), which panics
the engine thread: the trace ends in a `panicked` event. -/
theorem c7_counterexample :
    (new_resolving_promise (AutoIdMap.new : AutoIdMap PromiseRef)
        (QuickJsRealmAdapter.mk "main") (Except.ok (0 : Int))
        (fun _ n => Except.ok (JSValue.num n)) true true false true).events
      = [ContEvent.resolveCalled (JSValue.num 0),
         ContEvent.panicked "prom resolution failed"] := by
  rfl

/-- C7 amended: every post-dispatch failure of the producer or the mapper
degrades to a rejected promise or a logged abandoned operation — no panic
— provided the engine calls made during settlement (error construction,
resolve, reject) themselves succeed; a failure of those engine calls
instead panics through `.expect` (see the counterexample). -/
theorem c7_amended_no_fatal_path {R : Type} (m0 : AutoIdMap PromiseRef)
    (q_ctx : QuickJsRealmAdapter) (produced : Except String R)
    (mapper : QuickJsRealmAdapter → R → Except JsError JSValue) (alive : Bool) :
    (new_resolving_promise m0 q_ctx produced mapper alive true true
        true).events.all (fun e => ! ContEvent.isPanic e) = true := by
  cases alive
  · simp [new_resolving_promise, runContinuation, ContEvent.isPanic]
  · cases produced with
    | error s =>
      simp [new_resolving_promise, runContinuation, AutoIdMap.insert,
        AutoIdMap.removeOpt, findEntry, ContEvent.isPanic]
    | ok r =>
      cases hmv : mapper q_ctx r with
      | ok v =>
        simp [new_resolving_promise, runContinuation, AutoIdMap.insert,
          AutoIdMap.removeOpt, findEntry, hmv, ContEvent.isPanic]
      | error e =>
        simp [new_resolving_promise, runContinuation, AutoIdMap.insert,
          AutoIdMap.removeOpt, findEntry, hmv, ContEvent.isPanic]

/-- C8: for every operation whose target context is alive at continuation
time, the Registry afterwards no longer contains the operation's id — in
every terminal case (mapper success, producer error, mapper error, and
even the panicking engine-call paths, since removal precedes settlement). -/
theorem c8_settlement_removes_registry_entry {R : Type}
    (m0 : AutoIdMap PromiseRef) (q_ctx : QuickJsRealmAdapter)
    (produced : Except String R)
    (mapper : QuickJsRealmAdapter → R → Except JsError JSValue)
    (newErrorOk resolveOk rejectOk : Bool) :
    (new_resolving_promise m0 q_ctx produced mapper true newErrorOk resolveOk
        rejectOk).registry.get? (m0.insert promiseRefHandles).1 = none := by
  simp only [new_resolving_promise, runContinuation, AutoIdMap.insert,
    AutoIdMap.removeOpt, AutoIdMap.get?, if_true]
  exact findEntry_removeEntry_self _ _

/-- C9 counterexample: the claim says the handle `new_resolving_promise`
returns is borrowed and that obtaining it leaves the promise object's
native reference count unchanged; but on the concrete promise below,
`get_promise_obj_ref` is an owning clone (`self.promise_obj_ref.clone()`,
promises.rs line 22): obtaining it moves the count from 1 to 2, and the
returned handle is owning, not borrowed. -/
theorem c9_counterexample :
    (((new_promise 0).2.get_promise_obj_ref (new_promise 0).1).1 ≠ (new_promise 0).1)
    ∧ (((new_promise 0).2.get_promise_obj_ref (new_promise 0).1).2.owning = true) := by
  constructor
  · decide
  · rfl

/-- C9 amended: the promise-object handle returned synchronously to the
caller is an owning clone, not a borrowed handle: obtaining it increments
the promise object's native reference count by one, and dropping it
decrements the count back — its lifetime accounting is affected,
symmetrically. -/
theorem c9_amended_owning_clone (c : Nat) :
    (((new_promise c).2.get_promise_obj_ref (new_promise c).1).1 = (new_promise c).1 + 1)
    ∧ (((new_promise c).2.get_promise_obj_ref (new_promise c).1).2.owning = true)
    ∧ ((((new_promise c).2.get_promise_obj_ref (new_promise c).1).2.dropRef
          ((new_promise c).2.get_promise_obj_ref (new_promise c).1).1)
      = (new_promise c).1) := by
  refine ⟨?_, rfl, ?_⟩ <;>
    simp [new_promise, JSValueRef.new, JSValueRef.new_no_free,
      PromiseRef.get_promise_obj_ref, JSValueRef.clone, JSValueRef.dropRef]

/-- C10: the handle `get_promise_obj_ref` returns — the one
`new_resolving_promise` hands to its caller — is an owning clone of a
promise object that was itself wrapped owning via `JSValueRef::new`:
starting from count `c`, creating the promise yields count `c + 1`,
cloning yields `c + 2`, and after the registry-held `PromiseRef` drops its
own promise handle at settlement the count is still positive, so the
caller's handle remains a live reference. -/
theorem c10_caller_handle_survives_registry_drop (c : Nat) :
    ((new_promise c).2.promise_obj_ref.owning = true)
    ∧ (((new_promise c).2.get_promise_obj_ref (new_promise c).1).2.owning = true)
    ∧ (((new_promise c).2.get_promise_obj_ref (new_promise c).1).1 = c + 2)
    ∧ (0 < (new_promise c).2.promise_obj_ref.dropRef
        ((new_promise c).2.get_promise_obj_ref (new_promise c).1).1) := by
  refine ⟨rfl, rfl, ?_, ?_⟩ <;>
    simp [new_promise, JSValueRef.new, JSValueRef.new_no_free,
      PromiseRef.get_promise_obj_ref, JSValueRef.clone, JSValueRef.dropRef]
